import Mathlib

/-!
Shallow embedding of the arcane sealed-envelope package (arcane.go).

The package seals a payload into an Envelope (sign with the sender's RSA
key over created/expires/plaintext, AES-GCM-encrypt the payload under a
fresh 32-byte key, RSA-transport that key to the receiver) and opens it
(expiry check, certificate parse, trust check, key decryption, payload
decryption, signature verification, in that order).

The cryptographic primitives from the Go standard library (crypto/rsa,
crypto/aes + cipher.GCM, crypto/sha256, crypto/x509) are external
collaborators; they are modelled symbolically: byte strings are lists of
naturals, each primitive produces a tagged, length-prefixed encoding of
its inputs, decryption and verification invert that encoding exactly when
the keys match, and fail otherwise.  Time is modelled at one-second
granularity (the granularity of the RFC3339 strings the code exchanges).
-/

namespace Arcane

/-- Idealized octet strings: lists of natural numbers. -/
abbrev Bytes := List Nat

/-- Length-prefixed encoding of a byte string, used by the symbolic
cryptographic primitives so that composite ciphertexts decode uniquely. -/
def encList (xs : Bytes) : Bytes := xs.length :: xs

/-- Decode one length-prefixed field, returning the field and the
remaining bytes, or fail. -/
def decList : Bytes → Option (Bytes × Bytes)
  | [] => none
  | n :: rest => if n ≤ rest.length then some (rest.take n, rest.drop n) else none

theorem decList_encList (xs rest : Bytes) : decList (encList xs ++ rest) = some (xs, rest) := by
  simp only [encList, List.cons_append, decList, List.length_append]
  rw [if_pos (Nat.le_add_right _ _), List.take_left, List.drop_left]

/-- Model of an RFC3339 timestamp string at one-second granularity: either
a well-formed string denoting time t (seconds since epoch) or a string
that does not parse. -/
inductive TimeStr
  | valid (t : Int)
  | invalid (junk : Nat)
deriving DecidableEq

/-- Go time.Time.Format(time.RFC3339), at one-second granularity. -/
def formatRFC3339 (t : Int) : TimeStr := .valid t

/-- Go time.Parse(time.RFC3339, s): the denoted time, or a parse error. -/
def parseRFC3339 : TimeStr → Option Int
  | .valid t => some t
  | .invalid _ => none

/-- Injective byte rendering of a timestamp string, as fed to the SHA-256
hash by Seal and Open. -/
def TimeStr.toBytes : TimeStr → Bytes
  | .valid t => [0, if t < 0 then 1 else 0, t.natAbs]
  | .invalid j => [1, j, 0]

/-- Symbolic SHA-256 (crypto/sha256, as used via New/Write/Sum): an
injective digest of the input bytes (ideal collision-free hash). -/
def sha256 (m : Bytes) : Bytes := 204 :: encList m

/-- Symbolic RSA PKCS#1 v1.5 signature by the private key keyId over a
digest (crypto/rsa.SignPKCS1v15; PKCS#1 v1.5 signing is deterministic,
the rand argument only blinds). -/
def rsaSign (keyId : Nat) (digest : Bytes) : Bytes := 203 :: keyId :: encList digest

/-- Symbolic signature verification (crypto/rsa.VerifyPKCS1v15): succeeds
exactly on rsaSign keyId digest. -/
def rsaVerify (keyId : Nat) (digest sig : Bytes) : Bool := sig == rsaSign keyId digest

/-- Symbolic RSA PKCS#1 v1.5 key transport to the public key keyId, with
padding randomness r (crypto/rsa.EncryptPKCS1v15). -/
def rsaEncrypt (keyId : Nat) (r : Nat) (m : Bytes) : Bytes := 201 :: keyId :: r :: encList m

/-- Symbolic RSA PKCS#1 v1.5 decryption with the private key keyId
(crypto/rsa.DecryptPKCS1v15): recovers the plaintext exactly when the
ciphertext was produced for the matching public key; every other byte
string (wrong key, corrupted ciphertext, malformed padding) fails as one
opaque error. -/
def rsaDecrypt (keyId : Nat) : Bytes → Option Bytes
  | 201 :: k :: _r :: rest =>
      if k = keyId then
        match decList rest with
        | some (m, []) => some m
        | _ => none
      else none
  | _ => none

/-- AES-GCM nonce size in bytes (cipher.NewGCM standard nonce size). -/
def gcmNonceSize : Nat := 12

/-- Symbolic AES-GCM ciphertext-with-tag as produced by gcm.Seal before
the nonce is prepended: binds key, nonce and plaintext. -/
def gcmEnc (key nonce pt : Bytes) : Bytes :=
  202 :: (encList key ++ encList nonce ++ encList pt)

/-- Symbolic AES-GCM authenticated decryption (gcm.Open): succeeds exactly
when the ciphertext was produced under the same key and nonce; any
mismatch, truncation or malformed ciphertext is an authentication
failure. -/
def gcmOpen (key nonce : Bytes) : Bytes → Option Bytes
  | 202 :: rest =>
      match decList rest with
      | some (k, rest2) =>
          match decList rest2 with
          | some (n, rest3) =>
              match decList rest3 with
              | some (pt, []) => if k = key ∧ n = nonce then some pt else none
              | _ => none
          | _ => none
      | _ => none
  | _ => none

/-- Key lengths accepted by aes.NewCipher (AES-128/192/256); any other
length makes it return aes.KeySizeError. -/
def aesValidKeySize (n : Nat) : Bool := n == 16 || n == 24 || n == 32

/-- Public key carried by a certificate: an RSA key (the expected type) or
a key of another type, on which the .(*rsa.PublicKey) type assertions in
Seal and Open fail. -/
inductive PubKey
  | rsa (keyId : Nat)
  | nonRSA (tag : Nat)
deriving DecidableEq

/-- Model of an x509.Certificate: its public key and the id of the root
that issued it (which the trust evaluator checks against the pool). -/
structure Certificate where
  publicKey : PubKey
  issuerId : Nat
deriving DecidableEq

/-- Byte rendering of a certificate public key (two bytes). -/
def PubKey.toBytes : PubKey → Bytes
  | .rsa k => [0, k]
  | .nonRSA t => [1, t]

/-- DER encoding of a certificate (x509.Certificate.Raw). -/
def Certificate.Raw (c : Certificate) : Bytes :=
  205 :: (c.publicKey.toBytes ++ [c.issuerId])

/-- Model of x509.ParseCertificate: inverts Certificate.Raw and fails on
every other byte string. -/
def parseCertificate : Bytes → Option Certificate
  | [205, 0, k, iss] => some ⟨.rsa k, iss⟩
  | [205, 1, t, iss] => some ⟨.nonRSA t, iss⟩
  | _ => none

theorem parseCertificate_Raw (c : Certificate) : parseCertificate c.Raw = some c := by
  cases c with
  | mk pk iss => cases pk <;> rfl

/-- Model of the trust pool x509.CertPool: the trusted root ids. -/
structure CertPool where
  roots : List Nat
deriving DecidableEq

/-- Model of x509.Certificate.Verify against a pool of roots (the external
trust evaluator): the certificate chains to a trusted root exactly when
its issuing root is in the pool; an empty pool trusts nothing. -/
def certVerify (c : Certificate) (pool : CertPool) : Bool :=
  pool.roots.contains c.issuerId

/-- Header (arcane.go lines 35 to 41). -/
structure Header where
  sealerCert : Bytes
  signature : Bytes
  encryptedKey : Bytes
  created : TimeStr
  expires : TimeStr
deriving DecidableEq

/-- Envelope (arcane.go lines 44 to 47). -/
structure Envelope where
  header : Header
  payload : Bytes
deriving DecidableEq

/-- Sealer configuration (arcane.go lines 50 to 55): time-to-live in
seconds, the sender's RSA private key (by key id), the sender's
certificate and the receiver's certificate. -/
structure Sealer where
  TimeToLive : Int
  PrivateKey : Nat
  Cert : Certificate
  ReceiverCert : Certificate
deriving DecidableEq

/-- Randomness consumed by one Seal call: the seed of the 32-byte content
key, the seed of the 12-byte nonce, and the PKCS#1 v1.5 padding
randomness. -/
structure SealRand where
  keySeed : Nat
  nonceSeed : Nat
  padSeed : Nat
deriving DecidableEq

/-- crypto/rand: n bytes generated from a seed; rand.Read and io.ReadFull
always fill the whole buffer. -/
def randBytes (seed n : Nat) : Bytes := (List.range n).map (fun i => (seed + i) % 256)

theorem randBytes_length (seed n : Nat) : (randBytes seed n).length = n := by
  simp [randBytes]

/-- Effective time-to-live used by Seal (lines 61 to 67): the configured
TimeToLive, or 5 minutes (300 s) when it is zero/unset. -/
def Sealer.effectiveTTL (s : Sealer) : Int :=
  if s.TimeToLive ≠ 0 then s.TimeToLive else 300

/-- Errors Seal can return in the model: aes.NewCipher rejecting the key
length (never reached, the generated key has 32 bytes) and the receiver
certificate carrying a non-RSA public key. -/
inductive SealError
  | aesKeySizeError (n : Nat)
  | receiverKeyNotRSA
deriving DecidableEq

/-- Seal (arcane.go lines 58 to 131): stamp created and expires, sign
sha256(created-text, expires-text, payload) with the sender's private
key, encrypt the payload under a fresh random 32-byte key with AES-GCM
prepending the random nonce, and transport that key to the receiver with
RSA PKCS#1 v1.5.  nowT is the pluggable clock's current time and r the
randomness consumed from crypto/rand. -/
def Sealer.Seal (s : Sealer) (nowT : Int) (r : SealRand) (payload : Bytes) :
    Except SealError Envelope :=
  match s.ReceiverCert.publicKey with
  | .nonRSA _ => .error .receiverKeyNotRSA
  | .rsa receiverPubKey =>
      if aesValidKeySize (randBytes r.keySeed 32).length = false then
        .error (.aesKeySizeError (randBytes r.keySeed 32).length)
      else
        .ok { header := { sealerCert := s.Cert.Raw
                        , signature := rsaSign s.PrivateKey (sha256
                            ((formatRFC3339 nowT).toBytes
                              ++ (formatRFC3339 (nowT + s.effectiveTTL)).toBytes
                              ++ payload))
                        , encryptedKey := rsaEncrypt receiverPubKey r.padSeed
                            (randBytes r.keySeed 32)
                        , created := formatRFC3339 nowT
                        , expires := formatRFC3339 (nowT + s.effectiveTTL) }
            , payload := randBytes r.nonceSeed gcmNonceSize
                ++ gcmEnc (randBytes r.keySeed 32) (randBytes r.nonceSeed gcmNonceSize)
                    payload }

/-- Opener configuration (arcane.go lines 134 to 137). -/
structure Opener where
  PrivateKey : Nat
  CertPool : Arcane.CertPool
deriving DecidableEq

/-- Errors Open can return.  The six Err-prefixed constructors model the
package-level error values of arcane.go lines 16 to 29; the remaining
constructors model raw errors passed through from the standard library
(time.Parse at line 143, aes.NewCipher at line 173) and the non-RSA
sealer public key error at line 191. -/
inductive OpenError
  | ErrMessageExpired
  | ErrUnableToParseSealerCert
  | ErrUntrustedCert
  | ErrUnableToGetEncryptionKey
  | ErrUnableToDecryptPayload
  | ErrInvalidSignature
  | timeParseError
  | aesKeySizeError (n : Nat)
  | pubKeyNotRSA
deriving DecidableEq

/-- The six package-level error values declared in arcane.go lines
16 to 29. -/
def OpenError.isPackageError : OpenError → Bool
  | .ErrMessageExpired => true
  | .ErrUnableToParseSealerCert => true
  | .ErrUntrustedCert => true
  | .ErrUnableToGetEncryptionKey => true
  | .ErrUnableToDecryptPayload => true
  | .ErrInvalidSignature => true
  | _ => false

/-- Outcome of Open: the plaintext, an error, or a run-time panic.  The Go
slice expression message.Payload[:nonceSize] at line 182 panics when the
payload slice is shorter than the nonce size (slice bound beyond the
capacity of a deserialized slice). -/
inductive OpenResult
  | ok (payload : Bytes)
  | error (e : OpenError)
  | panicked
deriving DecidableEq

/-- Open (arcane.go lines 140 to 210): parse expires and reject expired
envelopes; parse and trust-check the sealer certificate; recover the
content key with the receiver's private key; construct the AES-GCM
cipher; split the payload into nonce and ciphertext (a Go slice panic
when the payload is shorter than the nonce); AEAD-decrypt; verify the
signature over created, expires and the decrypted plaintext.  nowT is the
pluggable clock's current time. -/
def Opener.Open (o : Opener) (nowT : Int) (message : Envelope) : OpenResult :=
  match parseRFC3339 message.header.expires with
  | none => .error .timeParseError
  | some expires =>
      if expires < nowT then .error .ErrMessageExpired
      else
        match parseCertificate message.header.sealerCert with
        | none => .error .ErrUnableToParseSealerCert
        | some sealerCert =>
            if certVerify sealerCert o.CertPool = false then .error .ErrUntrustedCert
            else
              match rsaDecrypt o.PrivateKey message.header.encryptedKey with
              | none => .error .ErrUnableToGetEncryptionKey
              | some decryptedKey =>
                  if aesValidKeySize decryptedKey.length = false then
                    .error (.aesKeySizeError decryptedKey.length)
                  else
                    if message.payload.length < gcmNonceSize then .panicked
                    else
                      match gcmOpen decryptedKey (message.payload.take gcmNonceSize)
                          (message.payload.drop gcmNonceSize) with
                      | none => .error .ErrUnableToDecryptPayload
                      | some plaintext =>
                          match sealerCert.publicKey with
                          | .nonRSA _ => .error .pubKeyNotRSA
                          | .rsa pubKey =>
                              if rsaVerify pubKey (sha256
                                  (message.header.created.toBytes
                                    ++ message.header.expires.toBytes ++ plaintext))
                                  message.header.signature = false then
                                .error .ErrInvalidSignature
                              else .ok plaintext

/-- The stages of Open, in the order they appear in the code. -/
inductive Stage
  | expiryCheck
  | certParse
  | trustCheck
  | keyDecrypt
  | payloadDecrypt
  | signatureVerify
deriving DecidableEq

/-- The full stage order of Open (arcane.go lines 140 to 210). -/
def stageOrder : List Stage :=
  [.expiryCheck, .certParse, .trustCheck, .keyDecrypt, .payloadDecrypt, .signatureVerify]

/-- Open instrumented with the list of stages it attempts, in order; the
result component coincides with Open (theorem openTrace_fst).  A stage is
attempted as soon as its first operation runs: the expiry stage when
expires is parsed, the payload-decryption stage when the AES cipher is
constructed, the signature stage when the sealer public key is
inspected. -/
def Opener.OpenTrace (o : Opener) (nowT : Int) (message : Envelope) :
    OpenResult × List Stage :=
  match parseRFC3339 message.header.expires with
  | none => (.error .timeParseError, [.expiryCheck])
  | some expires =>
      if expires < nowT then (.error .ErrMessageExpired, [.expiryCheck])
      else
        match parseCertificate message.header.sealerCert with
        | none => (.error .ErrUnableToParseSealerCert, [.expiryCheck, .certParse])
        | some sealerCert =>
            if certVerify sealerCert o.CertPool = false then
              (.error .ErrUntrustedCert, [.expiryCheck, .certParse, .trustCheck])
            else
              match rsaDecrypt o.PrivateKey message.header.encryptedKey with
              | none => (.error .ErrUnableToGetEncryptionKey,
                  [.expiryCheck, .certParse, .trustCheck, .keyDecrypt])
              | some decryptedKey =>
                  if aesValidKeySize decryptedKey.length = false then
                    (.error (.aesKeySizeError decryptedKey.length),
                      [.expiryCheck, .certParse, .trustCheck, .keyDecrypt, .payloadDecrypt])
                  else
                    if message.payload.length < gcmNonceSize then
                      (.panicked,
                        [.expiryCheck, .certParse, .trustCheck, .keyDecrypt, .payloadDecrypt])
                    else
                      match gcmOpen decryptedKey (message.payload.take gcmNonceSize)
                          (message.payload.drop gcmNonceSize) with
                      | none => (.error .ErrUnableToDecryptPayload,
                          [.expiryCheck, .certParse, .trustCheck, .keyDecrypt, .payloadDecrypt])
                      | some plaintext =>
                          match sealerCert.publicKey with
                          | .nonRSA _ => (.error .pubKeyNotRSA, stageOrder)
                          | .rsa pubKey =>
                              if rsaVerify pubKey (sha256
                                  (message.header.created.toBytes
                                    ++ message.header.expires.toBytes ++ plaintext))
                                  message.header.signature = false then
                                (.error .ErrInvalidSignature, stageOrder)
                              else (.ok plaintext, stageOrder)

theorem rsaDecrypt_rsaEncrypt (k r : Nat) (m : Bytes) :
    rsaDecrypt k (rsaEncrypt k r m) = some m := by
  have h : decList (encList m) = some (m, []) := by
    simpa using decList_encList m []
  simp [rsaDecrypt, rsaEncrypt, h]

theorem rsaDecrypt_rsaEncrypt_wrongKey (k k' r : Nat) (m : Bytes) (hne : k ≠ k') :
    rsaDecrypt k' (rsaEncrypt k r m) = none := by
  simp [rsaDecrypt, rsaEncrypt, hne]

theorem gcmOpen_gcmEnc (key nonce pt : Bytes) :
    gcmOpen key nonce (gcmEnc key nonce pt) = some pt := by
  have h1 : decList (encList key ++ (encList nonce ++ encList pt))
      = some (key, encList nonce ++ encList pt) := decList_encList _ _
  have h2 : decList (encList nonce ++ encList pt) = some (nonce, encList pt) :=
    decList_encList _ _
  have h3 : decList (encList pt) = some (pt, []) := by
    simpa using decList_encList pt []
  simp [gcmOpen, gcmEnc, List.append_assoc, h1, h2, h3]

theorem rsaVerify_rsaSign (k : Nat) (d : Bytes) : rsaVerify k d (rsaSign k d) = true := by
  simp [rsaVerify]

theorem certVerify_of_mem (c : Certificate) (pool : CertPool)
    (h : c.issuerId ∈ pool.roots) : certVerify c pool = true :=
  List.elem_eq_true_of_mem h

theorem certVerify_empty (c : Certificate) : certVerify c ⟨[]⟩ = false := by
  simp [certVerify]

theorem openTrace_fst (o : Opener) (nowT : Int) (m : Envelope) :
    (Opener.OpenTrace o nowT m).1 = Opener.Open o nowT m := by
  unfold Opener.OpenTrace Opener.Open
  repeat' split
  all_goals rfl

theorem openTrace_take (o : Opener) (nowT : Int) (m : Envelope) :
    ∃ k, (Opener.OpenTrace o nowT m).2 = stageOrder.take k := by
  unfold Opener.OpenTrace
  repeat' split
  all_goals first
    | exact ⟨1, rfl⟩
    | exact ⟨2, rfl⟩
    | exact ⟨3, rfl⟩
    | exact ⟨4, rfl⟩
    | exact ⟨5, rfl⟩
    | exact ⟨6, rfl⟩

theorem openTrace_ok (o : Opener) (nowT : Int) (m : Envelope) (pt : Bytes)
    (h : (Opener.OpenTrace o nowT m).1 = .ok pt) :
    (Opener.OpenTrace o nowT m).2 = stageOrder := by
  unfold Opener.OpenTrace at h ⊢
  repeat' split at h
  all_goals simp_all
  all_goals rw [if_neg (by omega), if_neg (by omega)]

theorem open_untrusted (o : Opener) (nowT : Int) (m : Envelope) (e : Int) (c : Certificate)
    (hp : parseRFC3339 m.header.expires = some e) (hlt : ¬ e < nowT)
    (hc : parseCertificate m.header.sealerCert = some c)
    (hv : certVerify c o.CertPool = false) :
    Opener.Open o nowT m = .error .ErrUntrustedCert ∧
      (Opener.OpenTrace o nowT m).2 = [.expiryCheck, .certParse, .trustCheck] := by
  unfold Opener.Open Opener.OpenTrace
  simp [hp, hc, hv, hlt]

theorem take_exact (xs ys : Bytes) (n : Nat) (h : xs.length = n) : (xs ++ ys).take n = xs := by
  subst h; exact List.take_left xs ys

theorem drop_exact (xs ys : Bytes) (n : Nat) (h : xs.length = n) : (xs ++ ys).drop n = ys := by
  subst h; exact List.drop_left xs ys

/-- C1: if the sealer's private key matches the sealer certificate, the
receiver certificate's public key matches the opener's private key, the
opener's trust pool contains the sealer certificate's issuing root, and
the envelope is opened at or before its expiry, then opening a sealed
envelope returns the original payload with no error. -/
theorem seal_open_roundtrip
    (s : Sealer) (o : Opener) (r : SealRand) (p : Bytes)
    (sealT openT : Int) (env : Envelope)
    (hkey : s.Cert.publicKey = .rsa s.PrivateKey)
    (hrecv : s.ReceiverCert.publicKey = .rsa o.PrivateKey)
    (htrust : s.Cert.issuerId ∈ o.CertPool.roots)
    (hfresh : openT ≤ sealT + s.effectiveTTL)
    (hseal : Sealer.Seal s sealT r p = .ok env) :
    Opener.Open o openT env = .ok p := by
  unfold Sealer.Seal at hseal
  rw [hrecv, randBytes_length] at hseal
  simp only [aesValidKeySize] at hseal
  norm_num at hseal
  subst hseal
  have hnl : ¬ (sealT + s.effectiveTTL < openT) := not_lt.mpr hfresh
  have hlen : ¬ ((randBytes r.nonceSeed gcmNonceSize
      ++ gcmEnc (randBytes r.keySeed 32) (randBytes r.nonceSeed gcmNonceSize) p).length
        < gcmNonceSize) := by
    simp [List.length_append, randBytes_length]
  have htake := take_exact (randBytes r.nonceSeed gcmNonceSize)
    (gcmEnc (randBytes r.keySeed 32) (randBytes r.nonceSeed gcmNonceSize) p)
    gcmNonceSize (randBytes_length _ _)
  have hdrop := drop_exact (randBytes r.nonceSeed gcmNonceSize)
    (gcmEnc (randBytes r.keySeed 32) (randBytes r.nonceSeed gcmNonceSize) p)
    gcmNonceSize (randBytes_length _ _)
  simp [Opener.Open, parseRFC3339, formatRFC3339, hnl, parseCertificate_Raw,
    certVerify_of_mem _ _ htrust, rsaDecrypt_rsaEncrypt, randBytes_length,
    aesValidKeySize, hlen, htake, hdrop, gcmOpen_gcmEnc, hkey, rsaVerify_rsaSign]

/-- Sealer certificate used by the concrete witnesses: RSA key 1, issued
by root 5. -/
def certS : Certificate := ⟨.rsa 1, 5⟩

/-- Receiver certificate used by the concrete witnesses: RSA key 2, issued
by root 5. -/
def certR : Certificate := ⟨.rsa 2, 5⟩

/-- Witness sealer: default TTL, private key 1, certS, sealing for
certR. -/
def sW : Sealer := ⟨0, 1, certS, certR⟩

/-- Witness opener: private key 2, trusting root 5. -/
def oW : Opener := ⟨2, ⟨[5]⟩⟩

/-- Witness randomness. -/
def rW : SealRand := ⟨3, 4, 6⟩

/-- Witness payload. -/
def pW : Bytes := [1, 2, 3]

/-- The envelope sW seals at time 0 with randomness rW and payload pW. -/
def envW : Envelope :=
  { header := { sealerCert := certS.Raw
              , signature := rsaSign 1 (sha256
                  ((TimeStr.valid 0).toBytes ++ (TimeStr.valid 300).toBytes ++ pW))
              , encryptedKey := rsaEncrypt 2 6 (randBytes 3 32)
              , created := .valid 0
              , expires := .valid 300 }
  , payload := randBytes 4 12 ++ gcmEnc (randBytes 3 32) (randBytes 4 12) pW }

theorem seal_open_roundtrip_witness : Opener.Open oW 5 envW = .ok pW :=
  seal_open_roundtrip sW oW rW pW 0 5 envW rfl rfl (by decide) (by decide) rfl

/-- C3: an envelope whose Expires parses and lies strictly before the
clock's current time is rejected with ErrMessageExpired, whatever the
other fields hold, and only the expiry stage runs: no decryption and no
signature verification is attempted. -/
theorem open_expired (o : Opener) (nowT : Int) (m : Envelope) (e : Int)
    (hp : parseRFC3339 m.header.expires = some e) (he : e < nowT) :
    Opener.Open o nowT m = .error .ErrMessageExpired ∧
      (Opener.OpenTrace o nowT m).2 = [Stage.expiryCheck] := by
  unfold Opener.Open Opener.OpenTrace
  simp [hp, he]

/-- Expired envelope used by the witnesses: expires at 10, with junk in
every other field. -/
def envExp : Envelope :=
  { header := { sealerCert := [9], signature := [9], encryptedKey := [9]
              , created := .valid 0, expires := .valid 10 }
  , payload := [9] }

theorem open_expired_witness :
    Opener.Open oW 11 envExp = .error .ErrMessageExpired ∧
      (Opener.OpenTrace oW 11 envExp).2 = [Stage.expiryCheck] :=
  open_expired oW 11 envExp 10 rfl (by decide)

/-- C2: the instrumented result agrees with Open; the attempted stage list
is always an initial segment of the fixed order expiry-check,
certificate-parse, trust-check, key-decrypt, payload-decrypt,
signature-verify (the first failing stage short-circuits all later ones);
a fully successful Open runs all six stages; and an unexpired envelope
whose parseable sealer certificate fails trust validation yields
ErrUntrustedCert without the key-decryption stage ever being
attempted. -/
theorem open_stage_contract (o : Opener) (nowT : Int) (m : Envelope) :
    (Opener.OpenTrace o nowT m).1 = Opener.Open o nowT m
    ∧ (∃ k, (Opener.OpenTrace o nowT m).2 = stageOrder.take k)
    ∧ (∀ pt, (Opener.OpenTrace o nowT m).1 = .ok pt →
        (Opener.OpenTrace o nowT m).2 = stageOrder)
    ∧ (∀ e c, parseRFC3339 m.header.expires = some e → ¬ e < nowT →
        parseCertificate m.header.sealerCert = some c →
        certVerify c o.CertPool = false →
        Opener.Open o nowT m = .error .ErrUntrustedCert
          ∧ Stage.keyDecrypt ∉ (Opener.OpenTrace o nowT m).2) := by
  refine ⟨openTrace_fst o nowT m, openTrace_take o nowT m,
    fun pt h => openTrace_ok o nowT m pt h, ?_⟩
  intro e c hp hlt hc hv
  obtain ⟨h1, h2⟩ := open_untrusted o nowT m e c hp hlt hc hv
  refine ⟨h1, ?_⟩
  rw [h2]
  decide

/-- Opener with an empty trust pool, used by the witnesses. -/
def oEmpty : Opener := ⟨2, ⟨[]⟩⟩

/-- Unexpired envelope carrying the parseable sealer certificate certS and
junk in the remaining fields, used by the witnesses. -/
def envU : Envelope :=
  { header := { sealerCert := certS.Raw, signature := [9], encryptedKey := [9]
              , created := .valid 0, expires := .valid 100 }
  , payload := [9] }

theorem open_stage_contract_witness :
    Opener.Open oEmpty 0 envU = .error .ErrUntrustedCert ∧
      Stage.keyDecrypt ∉ (Opener.OpenTrace oEmpty 0 envU).2 :=
  (open_stage_contract oEmpty 0 envU).2.2.2 100 certS rfl (by decide) rfl (by decide)

/-- Nanoseconds per second; Go time.Duration counts nanoseconds. -/
def nsPerSecond : Int := 1000000000

/-- Go Format(time.RFC3339) applied to an instant held as total
nanoseconds: the printed timestamp carries the containing whole second
(floor), sub-second precision is truncated away. -/
def formatRFC3339Ns (tNs : Int) : TimeStr := .valid (Int.fdiv tNs nsPerSecond)

/-- Nanosecond-resolution effective time-to-live (Seal lines 61 to 67):
the configured TimeToLive (a time.Duration, counted in nanoseconds), or
5 minutes when it is zero. -/
def effectiveTTLNs (ttl : Int) : Int := if ttl ≠ 0 then ttl else 300 * nsPerSecond

/-- Nanosecond-resolution refinement of Seal (arcane.go lines 58 to 131),
used for the expiry-construction invariant: identical to Sealer.Seal
except that the clock value and the TimeToLive field are read in
nanoseconds (the resolution of Go time.Duration and time.Time arithmetic)
and the RFC3339 strings truncate the instants to whole seconds, as
Format does. -/
def Sealer.SealNs (s : Sealer) (nowNs : Int) (r : SealRand) (payload : Bytes) :
    Except SealError Envelope :=
  match s.ReceiverCert.publicKey with
  | .nonRSA _ => .error .receiverKeyNotRSA
  | .rsa receiverPubKey =>
      if aesValidKeySize (randBytes r.keySeed 32).length = false then
        .error (.aesKeySizeError (randBytes r.keySeed 32).length)
      else
        .ok { header := { sealerCert := s.Cert.Raw
                        , signature := rsaSign s.PrivateKey (sha256
                            ((formatRFC3339Ns nowNs).toBytes
                              ++ (formatRFC3339Ns (nowNs + effectiveTTLNs s.TimeToLive)).toBytes
                              ++ payload))
                        , encryptedKey := rsaEncrypt receiverPubKey r.padSeed
                            (randBytes r.keySeed 32)
                        , created := formatRFC3339Ns nowNs
                        , expires := formatRFC3339Ns (nowNs + effectiveTTLNs s.TimeToLive) }
            , payload := randBytes r.nonceSeed gcmNonceSize
                ++ gcmEnc (randBytes r.keySeed 32) (randBytes r.nonceSeed gcmNonceSize)
                    payload }

theorem fdiv_lt_fdiv_add (t b : Int) (hb : nsPerSecond ≤ b) :
    Int.fdiv t nsPerSecond < Int.fdiv (t + b) nsPerSecond := by
  have hns : (0 : Int) ≤ nsPerSecond := by norm_num [nsPerSecond]
  rw [Int.fdiv_eq_ediv _ hns, Int.fdiv_eq_ediv _ hns]
  have h1 : t + 1 * nsPerSecond ≤ t + b := by
    norm_num [nsPerSecond] at hb ⊢; omega
  have h2 := Int.ediv_le_ediv (by norm_num [nsPerSecond] : (0 : Int) < nsPerSecond) h1
  rw [Int.add_mul_ediv_right t 1 (by norm_num [nsPerSecond])] at h2
  omega

/-- C5 (amended): every envelope Seal produces has Created rendering the
seal instant and Expires rendering the seal instant plus the effective
TTL (the configured TimeToLive, or 5 minutes when it is zero), the
addition exact at nanosecond resolution; the rendered Expires second is
strictly later than the rendered Created second whenever TimeToLive is
zero or at least one second.  A positive sub-second TimeToLive can leave
the two rendered timestamps equal, and a negative one can put Expires
before Created (see the counterexample). -/
theorem sealNs_created_expires (s : Sealer) (tNs : Int) (r : SealRand) (p : Bytes)
    (env : Envelope) (h : Sealer.SealNs s tNs r p = .ok env) :
    env.header.created = .valid (Int.fdiv tNs nsPerSecond) ∧
    env.header.expires = .valid (Int.fdiv (tNs + effectiveTTLNs s.TimeToLive) nsPerSecond) ∧
    ((s.TimeToLive = 0 ∨ nsPerSecond ≤ s.TimeToLive) →
      Int.fdiv tNs nsPerSecond
        < Int.fdiv (tNs + effectiveTTLNs s.TimeToLive) nsPerSecond) := by
  unfold Sealer.SealNs at h
  cases hr : s.ReceiverCert.publicKey with
  | nonRSA tag => rw [hr] at h; exact absurd h (by simp)
  | rsa kk =>
    rw [hr, randBytes_length] at h
    norm_num [aesValidKeySize] at h
    subst h
    refine ⟨rfl, rfl, fun hc => ?_⟩
    have hbig : nsPerSecond ≤ effectiveTTLNs s.TimeToLive := by
      unfold effectiveTTLNs
      rcases hc with h0 | h1
      · rw [h0]; norm_num [nsPerSecond]
      · have hne : s.TimeToLive ≠ 0 := by norm_num [nsPerSecond] at h1; omega
        rw [if_pos hne]; exact h1
    exact fdiv_lt_fdiv_add tNs _ hbig

theorem sealNs_created_expires_witness :
    envW.header.created = .valid (Int.fdiv 0 nsPerSecond) ∧
    envW.header.expires = .valid (Int.fdiv (0 + effectiveTTLNs sW.TimeToLive) nsPerSecond) ∧
    ((sW.TimeToLive = 0 ∨ nsPerSecond ≤ sW.TimeToLive) →
      Int.fdiv 0 nsPerSecond
        < Int.fdiv (0 + effectiveTTLNs sW.TimeToLive) nsPerSecond) :=
  sealNs_created_expires sW 0 rW pW envW rfl

/-- The created field of a Seal result, when it succeeded. -/
def sealCreatedField : Except SealError Envelope → Option TimeStr
  | .ok e => some e.header.created
  | .error _ => none

/-- The expires field of a Seal result, when it succeeded. -/
def sealExpiresField : Except SealError Envelope → Option TimeStr
  | .ok e => some e.header.expires
  | .error _ => none

/-- Sealer whose TimeToLive is the positive sub-second duration 100 ms. -/
def sSub : Sealer := ⟨100000000, 1, certS, certR⟩

/-- Sealer whose TimeToLive is -60 s. -/
def sNegNs : Sealer := ⟨-60 * nsPerSecond, 1, certS, certR⟩

/-- C5 counterexample: sealing with the positive sub-second TimeToLive of
100 ms at 0.2 s past an epoch second yields an envelope whose rendered
Expires equals its rendered Created (both RFC3339 strings carry second
0), so Expires is not strictly later than Created; and a TimeToLive of
-60 s even puts Expires (-60) strictly before Created (0). -/
theorem seal_subsecond_ttl_counterexample :
    sealCreatedField (Sealer.SealNs sSub 200000000 rW pW) = some (.valid 0) ∧
    sealExpiresField (Sealer.SealNs sSub 200000000 rW pW) = some (.valid 0) ∧
    sealCreatedField (Sealer.SealNs sNegNs 0 rW pW) = some (.valid 0) ∧
    sealExpiresField (Sealer.SealNs sNegNs 0 rW pW) = some (.valid (-60)) ∧
    ¬ ((0 : Int) < 0) :=
  ⟨rfl, rfl, rfl, rfl, by decide⟩

/-- Envelope passing the expiry, certificate-parse, trust and key-decrypt
stages of oW whose Payload is shorter than the 12-byte nonce: the slice
expression in Open panics on it. -/
def envShort : Envelope :=
  { header := { sealerCert := certS.Raw, signature := [9]
              , encryptedKey := rsaEncrypt 2 6 (randBytes 3 32)
              , created := .valid 0, expires := .valid 100 }
  , payload := [] }

/-- C4: evaluation of Open at the failing input: an envelope that passes
expiry, certificate-parse, trust and key-decrypt but whose payload is
shorter than the nonce length makes Open panic (Go slice bounds out of
range at Payload[:nonceSize]) instead of returning
ErrUnableToDecryptPayload. -/
theorem open_short_payload_panics :
    Opener.Open oW 0 envShort = .panicked ∧
      Opener.Open oW 0 envShort ≠ .error .ErrUnableToDecryptPayload := by
  constructor
  · rfl
  · decide

/-- C6: Seal signs exactly the SHA-256 digest of created-text, expires-text
and the plaintext payload (never the ciphertext); and once every earlier
stage of Open has succeeded and produced the decrypted plaintext, Open
returns the plaintext when the recomputed digest verifies against the
sealer certificate's public key and ErrInvalidSignature exactly when it
does not. -/
theorem signature_over_plaintext :
    (∀ (s : Sealer) (t : Int) (r : SealRand) (p : Bytes) (env : Envelope),
        Sealer.Seal s t r p = .ok env →
        env.header.signature = rsaSign s.PrivateKey (sha256
          ((formatRFC3339 t).toBytes ++ (formatRFC3339 (t + s.effectiveTTL)).toBytes ++ p)))
    ∧ (∀ (o : Opener) (nowT : Int) (m : Envelope) (e : Int) (c : Certificate)
        (k pt : Bytes) (pubId : Nat),
        parseRFC3339 m.header.expires = some e → ¬ e < nowT →
        parseCertificate m.header.sealerCert = some c →
        certVerify c o.CertPool = true →
        rsaDecrypt o.PrivateKey m.header.encryptedKey = some k →
        aesValidKeySize k.length = true →
        ¬ m.payload.length < gcmNonceSize →
        gcmOpen k (m.payload.take gcmNonceSize) (m.payload.drop gcmNonceSize) = some pt →
        c.publicKey = .rsa pubId →
        Opener.Open o nowT m =
          (if rsaVerify pubId (sha256 (m.header.created.toBytes
              ++ m.header.expires.toBytes ++ pt)) m.header.signature
           then .ok pt else .error .ErrInvalidSignature)) := by
  constructor
  · intro s t r p env h
    unfold Sealer.Seal at h
    cases hr : s.ReceiverCert.publicKey with
    | nonRSA tag => rw [hr] at h; exact absurd h (by simp)
    | rsa kk =>
      rw [hr, randBytes_length] at h
      norm_num [aesValidKeySize] at h
      subst h
      rfl
  · intro o nowT m e c k pt pubId hp hlt hc hv hk hks hlen hg hpk
    unfold Opener.Open
    simp [hp, hlt, hc, hv, hk, hks, hlen, hg, hpk]
    cases hX : rsaVerify pubId (sha256 (m.header.created.toBytes
        ++ (m.header.expires.toBytes ++ pt))) m.header.signature <;> simp [hX]

theorem signature_over_plaintext_witness :
    envW.header.signature = rsaSign sW.PrivateKey (sha256
        ((formatRFC3339 0).toBytes ++ (formatRFC3339 (0 + sW.effectiveTTL)).toBytes ++ pW))
    ∧ Opener.Open oW 5 envW =
        (if rsaVerify 1 (sha256 (envW.header.created.toBytes
            ++ envW.header.expires.toBytes ++ pW)) envW.header.signature
         then .ok pW else .error .ErrInvalidSignature) :=
  ⟨signature_over_plaintext.1 sW 0 rW pW envW rfl,
   signature_over_plaintext.2 oW 5 envW 300 certS (randBytes 3 32) pW 1
     rfl (by decide) rfl (by decide) (by decide) (by decide) (by decide) (by decide) rfl⟩

/-- C7: for an unexpired envelope carrying a parseable sealer certificate,
an opener with an empty trust pool fails with ErrUntrustedCert whatever
the payload, signature and key fields hold; an opener whose pool holds
exactly the certificate's issuing root passes the trust stage: the
certificate verifies, the result is never ErrUntrustedCert, and the
key-decryption stage is attempted. -/
theorem trust_gate (priv : Nat) (nowT : Int) (m : Envelope) (e : Int) (c : Certificate)
    (hp : parseRFC3339 m.header.expires = some e) (hlt : ¬ e < nowT)
    (hc : parseCertificate m.header.sealerCert = some c) :
    Opener.Open ⟨priv, ⟨[]⟩⟩ nowT m = .error .ErrUntrustedCert ∧
    certVerify c ⟨[c.issuerId]⟩ = true ∧
    Opener.Open ⟨priv, ⟨[c.issuerId]⟩⟩ nowT m ≠ .error .ErrUntrustedCert ∧
    Stage.keyDecrypt ∈ (Opener.OpenTrace ⟨priv, ⟨[c.issuerId]⟩⟩ nowT m).2 := by
  have hv : certVerify c ⟨[c.issuerId]⟩ = true := certVerify_of_mem _ _ (by simp)
  refine ⟨(open_untrusted _ nowT m e c hp hlt hc (certVerify_empty c)).1, hv, ?_, ?_⟩
  · unfold Opener.Open
    simp only [hp, hc]
    rw [if_neg hlt, if_neg (by simp [hv])]
    repeat' split
    all_goals simp
  · unfold Opener.OpenTrace
    simp only [hp, hc]
    rw [if_neg hlt, if_neg (by simp [hv])]
    repeat' split
    all_goals simp [stageOrder]

theorem trust_gate_witness :
    Opener.Open ⟨2, ⟨[]⟩⟩ 0 envU = .error .ErrUntrustedCert ∧
    certVerify certS ⟨[certS.issuerId]⟩ = true ∧
    Opener.Open ⟨2, ⟨[certS.issuerId]⟩⟩ 0 envU ≠ .error .ErrUntrustedCert ∧
    Stage.keyDecrypt ∈ (Opener.OpenTrace ⟨2, ⟨[certS.issuerId]⟩⟩ 0 envU).2 :=
  trust_gate 2 0 envU 100 certS rfl (by decide) rfl

/-- C8: an envelope sealed for a given receiver, opened in time and under
a trusted root by an opener configured with a private key different from
that receiver's, yields ErrUnableToGetEncryptionKey: wrong-recipient
PKCS#1 v1.5 key decryption fails as the single opaque error class, not a
crash and not a different plaintext. -/
theorem wrong_recipient (s : Sealer) (o : Opener) (r : SealRand) (p : Bytes)
    (sealT openT : Int) (env : Envelope) (recvId : Nat)
    (hrecv : s.ReceiverCert.publicKey = .rsa recvId)
    (hwrong : o.PrivateKey ≠ recvId)
    (htrust : s.Cert.issuerId ∈ o.CertPool.roots)
    (hfresh : openT ≤ sealT + s.effectiveTTL)
    (hseal : Sealer.Seal s sealT r p = .ok env) :
    Opener.Open o openT env = .error .ErrUnableToGetEncryptionKey := by
  unfold Sealer.Seal at hseal
  rw [hrecv, randBytes_length] at hseal
  norm_num [aesValidKeySize] at hseal
  subst hseal
  have hnl : ¬ (sealT + s.effectiveTTL < openT) := not_lt.mpr hfresh
  have hdec : rsaDecrypt o.PrivateKey
      (rsaEncrypt recvId r.padSeed (randBytes r.keySeed 32)) = none :=
    rsaDecrypt_rsaEncrypt_wrongKey recvId o.PrivateKey r.padSeed _ hwrong.symm
  simp [Opener.Open, parseRFC3339, formatRFC3339, hnl, parseCertificate_Raw,
    certVerify_of_mem _ _ htrust, hdec]

/-- Opener holding private key 3, which matches neither certS nor
certR. -/
def oWrong : Opener := ⟨3, ⟨[5]⟩⟩

theorem wrong_recipient_witness :
    Opener.Open oWrong 5 envW = .error .ErrUnableToGetEncryptionKey :=
  wrong_recipient sW oWrong rW pW 0 5 envW 2 rfl (by decide) (by decide) (by decide) rfl

/-- C9: when RSA decryption of the encrypted key succeeds but the
recovered key has a length aes.NewCipher rejects, Open returns the raw
AES key-size error, which is not one of the six package-level error
values. -/
theorem open_bad_keysize (o : Opener) (nowT : Int) (m : Envelope) (e : Int)
    (c : Certificate) (k : Bytes)
    (hp : parseRFC3339 m.header.expires = some e) (hlt : ¬ e < nowT)
    (hc : parseCertificate m.header.sealerCert = some c)
    (hv : certVerify c o.CertPool = true)
    (hk : rsaDecrypt o.PrivateKey m.header.encryptedKey = some k)
    (hbad : aesValidKeySize k.length = false) :
    Opener.Open o nowT m = .error (.aesKeySizeError k.length) ∧
      OpenError.isPackageError (.aesKeySizeError k.length) = false := by
  constructor
  · unfold Opener.Open
    simp [hp, hlt, hc, hv, hk, hbad]
  · rfl

/-- Envelope whose encrypted key transports a 3-byte key to oW. -/
def envBadKey : Envelope :=
  { header := { sealerCert := certS.Raw, signature := [9]
              , encryptedKey := rsaEncrypt 2 6 [7, 7, 7]
              , created := .valid 0, expires := .valid 100 }
  , payload := [9] }

theorem open_bad_keysize_witness :
    Opener.Open oW 0 envBadKey = .error (.aesKeySizeError ([7, 7, 7] : Bytes).length) ∧
      OpenError.isPackageError (.aesKeySizeError ([7, 7, 7] : Bytes).length) = false :=
  open_bad_keysize oW 0 envBadKey 100 certS [7, 7, 7]
    rfl (by decide) rfl (by decide) (by decide) (by decide)

/-- C10: the expiry comparison is strict: an envelope opened exactly at
its parsed Expires time is not rejected as expired and the
certificate-parse stage is attempted. -/
theorem open_at_expiry_not_expired (o : Opener) (m : Envelope) (e : Int)
    (hp : parseRFC3339 m.header.expires = some e) :
    Opener.Open o e m ≠ .error .ErrMessageExpired ∧
      Stage.certParse ∈ (Opener.OpenTrace o e m).2 := by
  constructor
  · unfold Opener.Open
    simp only [hp]
    rw [if_neg (lt_irrefl e)]
    repeat' split
    all_goals simp
  · unfold Opener.OpenTrace
    simp only [hp]
    rw [if_neg (lt_irrefl e)]
    repeat' split
    all_goals simp [stageOrder]

theorem open_at_expiry_not_expired_witness :
    Opener.Open oW 10 envExp ≠ .error .ErrMessageExpired ∧
      Stage.certParse ∈ (Opener.OpenTrace oW 10 envExp).2 :=
  open_at_expiry_not_expired oW envExp 10 rfl

end Arcane
